import Mathlib

/-!
Verification of the RetroQuery identity-resolution and query-execution engine.

This file shallowly embeds the server-side engine:
  * `EthosNetworkClient` (the live-directory resolution chain, comparison and
    XP aggregation),
  * `DynamicAPIExecutor.executeAPICall` (the intent dispatcher),
  * `EthosMockClient` and `MemStorage` (the synthetic and static fallback
    tiers),
  * the `/api/ethos/user/:userkey/stats` route (the three-tier degradation
    controller),
and proves or refutes the frozen claims about them.

Modelling conventions:
  * The external directory is an oracle (`Directory`) of endpoint functions;
    each endpoint either returns a value (`ApiResult.ok`) or throws
    (`ApiResult.error`).  The client catches every throw locally, so client
    functions are total.
  * Instants are modelled at day granularity as `Int` (days since epoch);
    the finest time bucket used anywhere in the source is a calendar day.
    JavaScript `setDate(getDate() - n)` is exactly `now - n` in this model;
    `setMonth(-1)` / `setFullYear(-1)` are approximated as 30 / 365 days
    (no claim depends on the window length).
  * JavaScript falsiness on strings/numbers (`!x` true for undefined, null,
    `""`, `0`) is modelled explicitly on `Option` values.
  * Floating-point reputation values from the static store are modelled as
    rationals; no claim performs arithmetic on them.
-/

namespace RetroQuery

/-- JS `a || b` on strings: the empty string is falsy. -/
def jsOr (a b : String) : String := if a = "" then b else a

/-- `String.startsWith`, computed on the underlying character list. -/
def strStartsWith (s p : String) : Bool := p.data.isPrefixOf s.data

/-- `String.endsWith`, computed on the underlying character list. -/
def strEndsWith (s p : String) : Bool := p.data.isSuffixOf s.data

/-- `String.drop`, computed on the underlying character list. -/
def strDrop (s : String) (n : Nat) : String := String.mk (s.data.drop n)

/-- `String.all`, computed on the underlying character list. -/
def strAll (s : String) (p : Char → Bool) : Bool := s.data.all p

/-- `String.contains`, computed on the underlying character list. -/
def strContains (s : String) (c : Char) : Bool := s.data.contains c

/-- `String.toLower`, computed on the underlying character list. -/
def strToLower (s : String) : String := String.mk (s.data.map Char.toLower)

/-- JS `parseInt`: parse the longest leading run of digits; `none` models NaN. -/
def parseIntJs (s : String) : Option Nat :=
  let digits := s.data.takeWhile Char.isDigit
  if digits.isEmpty then none
  else some (digits.foldl (fun n c => 10 * n + (c.toNat - Char.toNat '0')) 0)

/-- The regex `^\d+$`. -/
def isNumericString (s : String) : Bool :=
  s ≠ "" && strAll s Char.isDigit

/-- One character of the class `[a-fA-F0-9]`. -/
def isHexChar (c : Char) : Bool :=
  c.isDigit || ('a' ≤ c && c ≤ 'f') || ('A' ≤ c && c ≤ 'F')

/-- The regex `^0x[a-fA-F0-9]{40}$` from `findUser`: `0x` followed by exactly
40 hex characters of either letter case. -/
def matchesEthAddress (s : String) : Bool :=
  strStartsWith s "0x" && s.length = 42 && strAll (strDrop s 2) isHexChar

/-- Raw user record returned by the directory's `/users/by/...` endpoints.
Optional-chained numeric fields (`?? 0` / `|| 0` in the source) are inlined
as total fields. -/
structure EthosUser where
  id : Int
  userkeys : List String
  score : Int
  reviewPositive : Int
  reviewNeutral : Int
  reviewNegative : Int
  vouchReceivedCount : Int
  xpTotal : Int
  deriving Repr, DecidableEq

structure Credibility where
  score : Int
  rank : Int
  percentile : ℚ
  deriving Repr, DecidableEq

/-- The `EthosProfile` shape produced by `transformUserData` (and stored in
the mock table).  The `activity` array is always `[]` in the live transform
and in the mock table, and no claim reads it, so it is omitted. -/
structure EthosProfile where
  address : String
  score : Int
  reviewCount : Int
  vouchCount : Int
  credibility : Credibility
  xpTotal : Int
  deriving Repr, DecidableEq

/-- `EthosNetworkClient.transformUserData`: flatten a raw directory user
record into a profile.  `credibility.rank` and `credibility.percentile` are
hardcoded to 0 because the directory response does not supply them. -/
def transformUserData (u : EthosUser) : EthosProfile :=
  { address := jsOr ((u.userkeys.head?).getD "") (toString u.id)
    score := u.score
    reviewCount := u.reviewPositive + u.reviewNeutral + u.reviewNegative
    vouchCount := u.vouchReceivedCount
    credibility := { score := u.score, rank := 0, percentile := 0 }
    xpTotal := u.xpTotal }

/-- Result of one external HTTP call: a decoded value, or a thrown error
(non-2xx status or network failure). -/
inductive ApiResult (α : Type) where
  | ok (value : α)
  | error
  deriving Repr, DecidableEq

/-- `users[0] || null` guarded by a surrounding try/catch: the head of a
successful non-empty response; a throw or an empty list yields `none`. -/
def firstOk {α : Type} : ApiResult (List α) → Option α
  | .ok (x :: _) => some x
  | _ => none

/-- The lookup endpoints a resolution strategy can be bound to. -/
inductive Endpoint where
  | farcasterUsernames
  | twitter
  | address
  | profileId
  | userId
  | farcasterIds
  | discord
  | telegram
  deriving Repr, DecidableEq

/-- One row of `/xp/user/{userkey}/season/{id}/weekly`. -/
structure WeeklyXpEntry where
  week : Nat
  weeklyXp : Int
  cumulativeXp : Int
  deriving Repr, DecidableEq

/-- An activity record.  Display-only fields (author, subject, comment,
ethAmount) are omitted: no claim reads them.  `timestamp` is `none` when the
record carries no timestamp. -/
structure Activity where
  id : String
  activityType : String
  score : Int
  timestamp : Option Int
  deriving Repr, DecidableEq

structure Review where
  id : String
  fromAddress : String
  toAddress : String
  score : Int
  comment : String
  timestamp : Int
  deriving Repr, DecidableEq

/-- A vote record; untyped (`any`) in the source. -/
structure Vote where
  raw : String
  deriving Repr, DecidableEq

inductive ActDirection where
  | all
  | given
  | received
  deriving Repr, DecidableEq

/-- The external reputation directory as an oracle of endpoint functions.
Each field models one HTTP endpoint the client calls. -/
structure Directory where
  byFarcasterUsernames : String → ApiResult (List EthosUser)
  byTwitter : String → ApiResult (List EthosUser)
  byAddress : String → ApiResult (List EthosUser)
  byProfileIds : Nat → ApiResult (List EthosUser)
  byUserIds : Nat → ApiResult (List EthosUser)
  byFarcasterIds : String → ApiResult (List EthosUser)
  byDiscord : String → ApiResult (List EthosUser)
  byTelegram : String → ApiResult (List EthosUser)
  xpUser : String → ApiResult Int
  xpWeekly : String → Nat → ApiResult (List WeeklyXpEntry)
  reviewsQ : String → ApiResult (List Review)
  searchQ : String → ApiResult (List EthosProfile)
  leaderboardQ : Nat → ApiResult (List EthosProfile)
  activitiesProfile : ActDirection → String → Option String → ApiResult (List Activity)
  activitiesByUserkey : String → Nat → ApiResult (List Activity)
  feedQ : Option (List String) → Nat → Option Nat → ApiResult (List Activity × Int)
  activityDetailsQ : String → Nat → ApiResult Activity
  votesQ : String → Nat → ApiResult (List Vote)
  reviewBetweenQ : String → String → ApiResult Review

/-- `EthosNetworkClient.getProfileData`, instrumented with the ordered list
of endpoints it attempts.  Source order: Farcaster-username lookup first,
then Twitter/X, then address (only when the input starts with `0x` and has
length 42), then profile id (only when the input is all digits); each failed
or empty lookup falls through to the next. -/
def getProfileDataT (dir : Directory) (userkey : String) :
    Option EthosProfile × List Endpoint :=
  match firstOk (dir.byFarcasterUsernames userkey) with
  | some u => (some (transformUserData u), [Endpoint.farcasterUsernames])
  | none =>
  match firstOk (dir.byTwitter userkey) with
  | some u => (some (transformUserData u), [Endpoint.farcasterUsernames, Endpoint.twitter])
  | none =>
  let pre := [Endpoint.farcasterUsernames, Endpoint.twitter]
  let step3 : Option EthosProfile × List Endpoint :=
    if strStartsWith userkey "0x" && userkey.length = 42 then
      match firstOk (dir.byAddress userkey) with
      | some u => (some (transformUserData u), pre ++ [Endpoint.address])
      | none => (none, pre ++ [Endpoint.address])
    else (none, pre)
  match step3 with
  | (some p, t) => (some p, t)
  | (none, t) =>
    if isNumericString userkey then
      match firstOk (dir.byProfileIds ((parseIntJs userkey).getD 0)) with
      | some u => (some (transformUserData u), t ++ [Endpoint.profileId])
      | none => (none, t ++ [Endpoint.profileId])
    else (none, t)

def getProfileData (dir : Directory) (userkey : String) : Option EthosProfile :=
  (getProfileDataT dir userkey).1

def getProfileDataCalls (dir : Directory) (userkey : String) : List Endpoint :=
  (getProfileDataT dir userkey).2

/-- `EthosNetworkClient.findUser`, instrumented with the endpoints it
attempts.  Pattern-classified inputs (address, ENS, bare numeric, explicit
`prefix:value` forms) are bound to a single strategy each and return without
fallthrough (an empty result or a throw yields `none`); only bare usernames
fall through Twitter/X and then Farcaster-username lookups. -/
def findUserT (dir : Directory) (identifier : String) :
    Option EthosUser × List Endpoint :=
  if matchesEthAddress identifier then
    (firstOk (dir.byAddress identifier), [Endpoint.address])
  else if strEndsWith identifier ".eth" then
    (firstOk (dir.byAddress identifier), [Endpoint.address])
  else if isNumericString identifier && 0 < (parseIntJs identifier).getD 0 then
    (firstOk (dir.byFarcasterIds identifier), [Endpoint.farcasterIds])
  else if strStartsWith identifier "profileId:" &&
      (parseIntJs (strDrop identifier 10)).isSome then
    (firstOk (dir.byProfileIds ((parseIntJs (strDrop identifier 10)).getD 0)),
      [Endpoint.profileId])
  else if strStartsWith identifier "userId:" &&
      (parseIntJs (strDrop identifier 7)).isSome then
    (firstOk (dir.byUserIds ((parseIntJs (strDrop identifier 7)).getD 0)),
      [Endpoint.userId])
  else if strStartsWith identifier "telegram:" then
    (firstOk (dir.byTelegram (strDrop identifier 9)), [Endpoint.telegram])
  else if strStartsWith identifier "telegramId:" then
    (firstOk (dir.byTelegram (strDrop identifier 11)), [Endpoint.telegram])
  else if strStartsWith identifier "discord:" then
    (firstOk (dir.byDiscord (strDrop identifier 8)), [Endpoint.discord])
  else if strStartsWith identifier "discordId:" then
    (firstOk (dir.byDiscord (strDrop identifier 10)), [Endpoint.discord])
  else if strStartsWith identifier "farcaster:" then
    (firstOk (dir.byFarcasterUsernames (strDrop identifier 10)), [Endpoint.farcasterUsernames])
  else
    match firstOk (dir.byTwitter identifier) with
    | some u => (some u, [Endpoint.twitter])
    | none =>
      (firstOk (dir.byFarcasterUsernames identifier),
        [Endpoint.twitter, Endpoint.farcasterUsernames])

def findUser (dir : Directory) (identifier : String) : Option EthosUser :=
  (findUserT dir identifier).1

def findUserCalls (dir : Directory) (identifier : String) : List Endpoint :=
  (findUserT dir identifier).2

/-- `EthosNetworkClient.getRawUserData`: Twitter/X lookup first, then
Farcaster username, without the profile transform. -/
def getRawUserData (dir : Directory) (userkey : String) : Option EthosUser :=
  match firstOk (dir.byTwitter userkey) with
  | some u => some u
  | none => firstOk (dir.byFarcasterUsernames userkey)

/-- `EthosNetworkClient.getUserWeeklyXP`: resolve the userkey via Twitter/X,
then fetch the season's weekly XP rows; any failure yields `[]`. -/
def getUserWeeklyXP (dir : Directory) (userkey : String) (seasonId : Nat) :
    List WeeklyXpEntry :=
  match firstOk (dir.byTwitter userkey) with
  | none => []
  | some u =>
    match u.userkeys.head? with
    | none => []
    | some k =>
      match dir.xpWeekly k seasonId with
      | .ok l => l
      | .error => []

/-- `EthosNetworkClient.getUserTotalXP`: resolve via Twitter/X, then fetch
the lifetime XP total; any failure yields 0. -/
def getUserTotalXP (dir : Directory) (userkey : String) : Int :=
  match firstOk (dir.byTwitter userkey) with
  | none => 0
  | some u =>
    match u.userkeys.head? with
    | none => 0
    | some k =>
      match dir.xpUser k with
      | .ok xp => xp
      | .error => 0

def getReviews (dir : Directory) (userkey : String) : List Review :=
  match dir.reviewsQ userkey with
  | .ok l => l
  | .error => []

def searchProfiles (dir : Directory) (query : String) : List EthosProfile :=
  match dir.searchQ query with
  | .ok l => l
  | .error => []

def getLeaderboard (dir : Directory) (limit : Nat) : List EthosProfile :=
  match dir.leaderboardQ limit with
  | .ok l => l
  | .error => []

structure ComparisonDeltas where
  scoreDiff : Int
  rankDiff : Int
  reviewDiff : Int
  vouchDiff : Int
  deriving Repr, DecidableEq

structure ComparisonResult where
  profile1 : Option EthosProfile
  profile2 : Option EthosProfile
  comparison : Option ComparisonDeltas
  deriving Repr, DecidableEq

/-- `EthosNetworkClient.compareProfiles`: resolve both userkeys, and compute
signed deltas only when both resolve.  The rank delta is reversed
(`rank2 - rank1`) because a lower rank number is better. -/
def compareProfiles (dir : Directory) (userkey1 userkey2 : String) :
    ComparisonResult :=
  let profile1 := getProfileData dir userkey1
  let profile2 := getProfileData dir userkey2
  match profile1, profile2 with
  | some a, some b =>
    { profile1 := some a
      profile2 := some b
      comparison := some
        { scoreDiff := a.score - b.score
          rankDiff := b.credibility.rank - a.credibility.rank
          reviewDiff := a.reviewCount - b.reviewCount
          vouchDiff := a.vouchCount - b.vouchCount } }
  | p1, p2 => { profile1 := p1, profile2 := p2, comparison := none }

/-- `EthosNetworkClient.getUserActivities`: resolve the raw user, then fetch
activities from the direction-specific profile endpoint; any failure yields
`[]`. -/
def getUserActivities (dir : Directory) (userkey direction : String)
    (activityType : Option String) : List Activity :=
  match getRawUserData dir userkey with
  | none => []
  | some u =>
    match u.userkeys.head? with
    | none => []
    | some k =>
      let ep : ActDirection :=
        if direction = "author" || direction = "given" then ActDirection.given
        else if direction = "subject" || direction = "received" then ActDirection.received
        else ActDirection.all
      match dir.activitiesProfile ep k activityType with
      | .ok l => l
      | .error => []

/-- Sort key for history merging: millisecond timestamps, with missing
timestamps treated as 0 (the source's NaN comparator result is
implementation-defined). -/
def tsKey (a : Activity) : Int := a.timestamp.getD 0

structure HistoryData where
  activities : List Activity
  timeframe : String
  totalActivities : Nat
  given : Nat
  received : Nat
  deriving Repr, DecidableEq

/-- `EthosNetworkClient.getUserActivityHistory`: fetch given and received
activities for the raw userkey, merge them newest-first, and attach a
summary; any failure yields the empty history.  (The source also computes a
start/end date range from the timeframe but never sends it; that dead
computation is omitted.) -/
def getUserActivityHistory (dir : Directory) (userkey timeframe : String)
    (activityType : Option String) : HistoryData :=
  match dir.activitiesProfile ActDirection.given userkey activityType,
        dir.activitiesProfile ActDirection.received userkey activityType with
  | .ok g, .ok r =>
    let allActivities := (g ++ r).mergeSort (fun a b => tsKey b ≤ tsKey a)
    { activities := allActivities
      timeframe := timeframe
      totalActivities := allActivities.length
      given := g.length
      received := r.length }
  | _, _ =>
    { activities := [], timeframe := timeframe
      totalActivities := 0, given := 0, received := 0 }

structure FeedData where
  activities : List Activity
  total : Int
  deriving Repr, DecidableEq

def getActivityFeed (dir : Directory) (filter : Option (List String))
    (limit : Nat) (dayRange : Option Nat) : FeedData :=
  match dir.feedQ filter limit dayRange with
  | .ok (vals, total) => { activities := vals, total := total }
  | .error => { activities := [], total := 0 }

def getActivityDetails (dir : Directory) (activityType : String) (id : Nat) :
    Option Activity :=
  match dir.activityDetailsQ activityType id with
  | .ok a => some a
  | .error => none

def getVotesForActivity (dir : Directory) (activityType : String)
    (activityId : Nat) : List Vote :=
  match dir.votesQ activityType activityId with
  | .ok l => l
  | .error => []

def getReviewBetweenUsers (dir : Directory) (authorUserKey subjectUserKey : String) :
    Option Review :=
  match dir.reviewBetweenQ authorUserKey subjectUserKey with
  | .ok r => some r
  | .error => none

/-- `EthosNetworkClient.getUserNetworks`: resolve via Twitter/X and classify
the profile's userkeys by service prefix.  The source builds an object keyed
by network name; modelled as the list of matched (network, userkey) pairs,
which is empty exactly when the source's object has no keys. -/
def getUserNetworks (dir : Directory) (userkey : String) :
    List (String × String) :=
  match firstOk (dir.byTwitter userkey) with
  | none => []
  | some p =>
    p.userkeys.filterMap fun k =>
      if strStartsWith k "service:x.com:" then some ("twitter", k)
      else if strStartsWith k "service:farcaster:" then some ("farcaster", k)
      else if strStartsWith k "service:discord:" then some ("discord", k)
      else if strStartsWith k "service:telegram:" then some ("telegram", k)
      else if strStartsWith k "address:" then some ("ethereum", k)
      else none

/-- Proleptic-Gregorian year and month of a day index (days since the Unix
epoch); civil-from-days conversion. -/
def civilYearMonth (z0 : Int) : Int × Int :=
  let z := z0 + 719468
  let era := (if 0 ≤ z then z else z - 146096) / 146097
  let doe := z - era * 146097
  let yoe := (doe - doe / 1460 + doe / 36524 - doe / 146096) / 365
  let y := yoe + era * 400
  let doy := doe - (365 * yoe + yoe / 4 - yoe / 100)
  let mp := (5 * doy + 2) / 153
  let m := if mp < 10 then mp + 3 else mp - 9
  (if m ≤ 2 then y + 1 else y, m)

/-- JS `Date.getDay` on a day index: day of week, 0 = Sunday. -/
def jsGetDay (t : Int) : Int := (t + 4) % 7

/-- `groupActivitiesByTime` bucket key: day (week view), week-start day
(month view), or year-month (year view). -/
def bucketKey (timeframe : String) (t : Int) : Int :=
  match timeframe with
  | "week" => t
  | "month" => t - jsGetDay t
  | "year" => (civilYearMonth t).1 * 100 + (civilYearMonth t).2
  | _ => t

/-- Insert into an insertion-ordered association list of buckets. -/
def groupInsert (key : Int) (a : Activity) :
    List (Int × List Activity) → List (Int × List Activity)
  | [] => [(key, [a])]
  | (k, l) :: rest =>
    if k = key then (k, l ++ [a]) :: rest
    else (k, l) :: groupInsert key a rest

/-- `EthosNetworkClient.groupActivitiesByTime`: bucket activities by the
timeframe-specific key, skipping records without a timestamp. -/
def groupActivitiesByTime (activities : List Activity) (timeframe : String) :
    List (Int × List Activity) :=
  activities.foldl
    (fun g a =>
      match a.timestamp with
      | none => g
      | some t => groupInsert (bucketKey timeframe t) a g)
    []

structure TrendPoint where
  date : Int
  scoreChange : Int
  activityCount : Nat
  activities : List Activity
  deriving Repr, DecidableEq

structure TrendsData where
  dataPoints : List TrendPoint
  timeframe : String
  totalActivities : Nat
  scoreChange : Int
  reviewsReceived : Nat
  vouchesReceived : Nat
  deriving Repr, DecidableEq

/-- `EthosNetworkClient.getReputationTrends`: group the activity history into
time buckets and compute per-bucket and summary score changes. -/
def getReputationTrends (dir : Directory) (userkey timeframe : String) :
    TrendsData :=
  let history := getUserActivityHistory dir userkey timeframe none
  let grouped := groupActivitiesByTime history.activities timeframe
  let dataPoints := grouped.map fun p =>
    { date := p.1
      scoreChange := p.2.foldl
        (fun s a =>
          if a.activityType = "review" || a.activityType = "vouch" then s + a.score
          else s) 0
      activityCount := p.2.length
      activities := p.2 : TrendPoint }
  { dataPoints := dataPoints
    timeframe := timeframe
    totalActivities := history.activities.length
    scoreChange := dataPoints.foldl (fun s p => s + p.scoreChange) 0
    reviewsReceived := (history.activities.filter
      (fun a => a.activityType = "review")).length
    vouchesReceived := (history.activities.filter
      (fun a => a.activityType = "vouch")).length }

/-- `EthosNetworkClient.getActivityObjects` (used by the stats route):
fetch activities by userkey; a missing timestamp defaults to now. -/
def getActivityObjects (dir : Directory) (now : Int) (userkey : String)
    (limit : Nat) : List Activity :=
  match dir.activitiesByUserkey userkey limit with
  | .ok l => l.map fun a => { a with timestamp := some (a.timestamp.getD now) }
  | .error => []

/-! ## The intent dispatcher (`DynamicAPIExecutor`) -/

/-- The parameter map extracted by the language-model collaborator.  Every
field is optional; `none` models an absent (`undefined`) parameter. -/
structure Params where
  userkey : Option String := none
  userkeys : Option (List String) := none
  timeframe : Option String := none
  limit : Option Nat := none
  metric : Option String := none
  query : Option String := none
  direction : Option String := none
  activityType : Option String := none
  activityId : Option Nat := none
  id : Option Nat := none
  filter : Option (List String) := none
  dayRange : Option Nat := none
  authorUserKey : Option String := none
  subjectUserKey : Option String := none
  deriving Repr, DecidableEq

/-- JS `!x` on a string parameter: true for undefined/null and `""`. -/
def falsyStr : Option String → Bool
  | none => true
  | some s => s = ""

/-- JS `!x` on a numeric parameter: true for undefined/null and 0. -/
def falsyNat : Option Nat → Bool
  | none => true
  | some n => n = 0

structure WeeklyDetails where
  weeklyXP : Int
  totalSeasonXP : Int
  deriving Repr, DecidableEq

/-- The stats object built by `getUserStats`: the spread profile plus XP
aggregates and the period range. -/
structure StatsData where
  profile : EthosProfile
  totalXP : Int
  timeframeXP : Int
  timeframe : String
  periodStart : Int
  periodEnd : Int
  weeklyDetails : Option WeeklyDetails
  deriving Repr, DecidableEq

structure ActivitiesData where
  activities : List Activity
  userkey : String
  direction : String
  activityType : String
  total : Nat
  deriving Repr, DecidableEq

structure VotesData where
  votes : List Vote
  userkey : String
  activityType : String
  activityId : Nat
  total : Nat
  deriving Repr, DecidableEq

/-- The `data` field of an execution result envelope: `null`, or the
operation-specific payload. -/
inductive Payload where
  | null
  | profile (p : EthosProfile)
  | stats (s : StatsData)
  | reviews (rs : List Review)
  | comparison (c : ComparisonResult)
  | leaderboard (ps : List EthosProfile)
  | searchResults (ps : List EthosProfile)
  | activities (a : ActivitiesData)
  | history (h : HistoryData)
  | feed (f : FeedData)
  | activityDetail (a : Activity)
  | votes (v : VotesData)
  | review (r : Review)
  | networks (ns : List (String × String))
  | trends (t : TrendsData)
  deriving Repr, DecidableEq

/-- The uniform execution result envelope (`APIExecutionResult`). -/
structure APIExecutionResult where
  success : Bool
  data : Payload
  message : String
  isRealData : Bool
  deriving Repr, DecidableEq

/-- The `success=false` envelope for a missing single-user identifier. -/
def requiredUserEnv : APIExecutionResult :=
  { success := false, data := Payload.null
    message := "User identifier required", isRealData := false }

/-- `DynamicAPIExecutor.getUserProfile`. -/
def getUserProfileOp (dir : Directory) (userkey : Option String) :
    APIExecutionResult :=
  if falsyStr userkey then requiredUserEnv
  else
    let k := userkey.getD ""
    match getProfileData dir k with
    | some p =>
      { success := true, data := Payload.profile p
        message := "Profile data retrieved successfully", isRealData := true }
    | none =>
      { success := false, data := Payload.null
        message := "User not found in Ethos Network", isRealData := false }

/-- Period start per executor timeframe: `day`, `week` are exact day
arithmetic (`setDate(getDate() - n)`); `month`, `year` approximate the
source's calendar subtraction as 30/365 days; the all-time default is the
epoch (`new Date(0)`). -/
def periodStartExec (now : Int) (timeframe : String) : Int :=
  match timeframe with
  | "day" => now - 1
  | "week" => now - 7
  | "month" => now - 30
  | "year" => now - 365
  | _ => 0

/-- `DynamicAPIExecutor.getUserStats`: resolve the profile, then compute the
timeframe-scoped XP value.  `day` is unsupported upstream and always yields
0; `week` uses the latest weekly sample; `month` sums the last 4 weekly
samples only when at least 4 exist, otherwise stays 0; `year` and the
default use the lifetime total. -/
def getUserStatsOp (dir : Directory) (now : Int)
    (userkey : Option String) (timeframe : Option String) : APIExecutionResult :=
  if falsyStr userkey then requiredUserEnv
  else
    let k := userkey.getD ""
    match getProfileData dir k with
    | none =>
      { success := false, data := Payload.null
        message := "User not found in Ethos Network", isRealData := false }
    | some p =>
      let tf := timeframe.getD "week"
      let xpDetails : Int × Option WeeklyDetails :=
        match tf with
        | "day" => (0, none)
        | "week" =>
          let weeklyData := getUserWeeklyXP dir k 1
          match weeklyData.getLast? with
          | some currentWeekData =>
            (currentWeekData.weeklyXp,
              some { weeklyXP := currentWeekData.weeklyXp
                     totalSeasonXP := currentWeekData.cumulativeXp })
          | none => (0, none)
        | "month" =>
          let monthlyData := getUserWeeklyXP dir k 1
          if 4 ≤ monthlyData.length then
            ((monthlyData.drop (monthlyData.length - 4)).foldl
              (fun s w => s + w.weeklyXp) 0, none)
          else (0, none)
        | "year" => (getUserTotalXP dir k, none)
        | _ => (getUserTotalXP dir k, none)
      { success := true
        data := Payload.stats
          { profile := p
            totalXP := getUserTotalXP dir k
            timeframeXP := xpDetails.1
            timeframe := tf
            periodStart := periodStartExec now tf
            periodEnd := now
            weeklyDetails := xpDetails.2 }
        message := "Statistics retrieved successfully"
        isRealData := true }

/-- `DynamicAPIExecutor.getUserReviews`. -/
def getUserReviewsOp (dir : Directory) (userkey : Option String) :
    APIExecutionResult :=
  if falsyStr userkey then requiredUserEnv
  else
    let rs := getReviews dir (userkey.getD "")
    { success := true, data := Payload.reviews rs
      message := "Retrieved " ++ toString rs.length ++ " reviews"
      isRealData := !rs.isEmpty }

/-- `DynamicAPIExecutor.compareUsers`: fewer than two userkeys is rejected
before any external call; otherwise both identities are resolved and the
envelope succeeds only when both resolve.  Note that `data` is always the
(non-null) comparison object, even on failure. -/
def compareUsersOp (dir : Directory) (userkeys : Option (List String)) :
    APIExecutionResult :=
  match userkeys with
  | some (k1 :: k2 :: _) =>
    let comparison := compareProfiles dir k1 k2
    let ok := comparison.profile1.isSome && comparison.profile2.isSome
    { success := ok
      data := Payload.comparison comparison
      message :=
        if ok then "Comparison completed successfully"
        else "One or both users not found"
      isRealData := ok }
  | _ =>
    { success := false, data := Payload.null
      message := "Two user identifiers required for comparison"
      isRealData := false }

/-- `DynamicAPIExecutor.getLeaderboard`. -/
def getLeaderboardOp (dir : Directory) (limit : Option Nat) :
    APIExecutionResult :=
  let lb := getLeaderboard dir (limit.getD 10)
  { success := !lb.isEmpty
    data := Payload.leaderboard lb
    message := "Retrieved top " ++ toString lb.length ++ " users"
    isRealData := !lb.isEmpty }

/-- `DynamicAPIExecutor.searchUsers`. -/
def searchUsersOp (dir : Directory) (query : Option String) :
    APIExecutionResult :=
  if falsyStr query then
    { success := false, data := Payload.null
      message := "Search query required", isRealData := false }
  else
    let q := query.getD ""
    let results := searchProfiles dir q
    { success := true
      data := Payload.searchResults results
      message := "Found " ++ toString results.length ++ " users matching \"" ++ q ++ "\""
      isRealData := !results.isEmpty }

/-- `DynamicAPIExecutor.getUserActivities`: always succeeds (even when the
list is empty), and the result is tagged real. -/
def getUserActivitiesOp (dir : Directory) (userkey : Option String)
    (direction : Option String) (activityType : Option String) :
    APIExecutionResult :=
  if falsyStr userkey then requiredUserEnv
  else
    let k := userkey.getD ""
    let dirn := direction.getD "all"
    let activities := getUserActivities dir k dirn activityType
    { success := true
      data := Payload.activities
        { activities := activities, userkey := k, direction := dirn
          activityType := activityType.getD "all", total := activities.length }
      message :=
        if !activities.isEmpty then
          "Retrieved " ++ toString activities.length ++ " activities for " ++ k
        else "No activities found for " ++ k
      isRealData := true }

/-- `DynamicAPIExecutor.getUserActivityHistory`: `data` is always the
(non-null) history object; success tracks non-emptiness. -/
def getUserActivityHistoryOp (dir : Directory) (userkey : Option String)
    (timeframe : Option String) (activityType : Option String) :
    APIExecutionResult :=
  if falsyStr userkey then requiredUserEnv
  else
    let tf := timeframe.getD "month"
    let history := getUserActivityHistory dir (userkey.getD "") tf activityType
    { success := !history.activities.isEmpty
      data := Payload.history history
      message := "Retrieved " ++ toString history.activities.length ++
        " activities from the last " ++ tf
      isRealData := !history.activities.isEmpty }

/-- `DynamicAPIExecutor.getActivityFeed`. -/
def getActivityFeedOp (dir : Directory) (filter : Option (List String))
    (limit : Option Nat) (dayRange : Option Nat) : APIExecutionResult :=
  let feed := getActivityFeed dir filter (limit.getD 50) dayRange
  { success := !feed.activities.isEmpty
    data := Payload.feed feed
    message := "Retrieved " ++ toString feed.activities.length ++
      " activities from feed"
    isRealData := !feed.activities.isEmpty }

/-- `DynamicAPIExecutor.getActivityDetails`. -/
def getActivityDetailsOp (dir : Directory) (activityType : Option String)
    (id : Option Nat) : APIExecutionResult :=
  if falsyStr activityType || falsyNat id then
    { success := false, data := Payload.null
      message := "Activity type and ID required", isRealData := false }
  else
    match getActivityDetails dir (activityType.getD "") (id.getD 0) with
    | some a =>
      { success := true, data := Payload.activityDetail a
        message := "Activity details retrieved", isRealData := true }
    | none =>
      { success := false, data := Payload.null
        message := "Activity not found", isRealData := false }

/-- `DynamicAPIExecutor.getUserVotes`. -/
def getUserVotesOp (dir : Directory) (userkey : Option String)
    (activityType : Option String) (activityId : Option Nat) :
    APIExecutionResult :=
  if falsyStr userkey || falsyStr activityType || falsyNat activityId then
    { success := false, data := Payload.null
      message := "User, activity type, and activity ID required"
      isRealData := false }
  else
    let votes := getVotesForActivity dir (activityType.getD "") (activityId.getD 0)
    { success := !votes.isEmpty
      data := Payload.votes
        { votes := votes, userkey := userkey.getD ""
          activityType := activityType.getD ""
          activityId := activityId.getD 0, total := votes.length }
      message := "Retrieved " ++ toString votes.length ++ " votes for activity"
      isRealData := !votes.isEmpty }

/-- `DynamicAPIExecutor.getReviewDetails`. -/
def getReviewDetailsOp (dir : Directory) (authorUserKey subjectUserKey : Option String) :
    APIExecutionResult :=
  if falsyStr authorUserKey || falsyStr subjectUserKey then
    { success := false, data := Payload.null
      message := "Author and subject user keys required", isRealData := false }
  else
    match getReviewBetweenUsers dir (authorUserKey.getD "") (subjectUserKey.getD "") with
    | some r =>
      { success := true, data := Payload.review r
        message := "Review details retrieved", isRealData := true }
    | none =>
      { success := false, data := Payload.null
        message := "No review found between users", isRealData := false }

/-- `DynamicAPIExecutor.getUserNetworks`: `data` is always the (non-null)
networks object; success tracks key presence. -/
def getUserNetworksOp (dir : Directory) (userkey : Option String) :
    APIExecutionResult :=
  if falsyStr userkey then requiredUserEnv
  else
    let k := userkey.getD ""
    let networks := getUserNetworks dir k
    { success := !networks.isEmpty
      data := Payload.networks networks
      message := "Retrieved network connections for " ++ k
      isRealData := !networks.isEmpty }

/-- `DynamicAPIExecutor.getReputationTrends`: `data` is always the
(non-null) trends object; success tracks data-point presence. -/
def getReputationTrendsOp (dir : Directory) (userkey : Option String)
    (timeframe : Option String) : APIExecutionResult :=
  if falsyStr userkey then requiredUserEnv
  else
    let tf := timeframe.getD "month"
    let trends := getReputationTrends dir (userkey.getD "") tf
    { success := !trends.dataPoints.isEmpty
      data := Payload.trends trends
      message := "Retrieved reputation trends for the last " ++ tf
      isRealData := !trends.dataPoints.isEmpty }

/-- `DynamicAPIExecutor.executeAPICall`: dispatch an intent to its operation;
an unsupported intent yields a `success=false` envelope naming the intent.
The source's top-level try/catch never fires in this model because every
client method catches its own errors, so every path returns an envelope. -/
def executeAPICall (dir : Directory) (now : Int) (intent : String)
    (parameters : Params) : APIExecutionResult :=
  match intent with
  | "user_profile" => getUserProfileOp dir parameters.userkey
  | "user_stats" => getUserStatsOp dir now parameters.userkey parameters.timeframe
  | "user_reviews" => getUserReviewsOp dir parameters.userkey
  | "user_comparison" => compareUsersOp dir parameters.userkeys
  | "leaderboard" => getLeaderboardOp dir parameters.limit
  | "search_users" => searchUsersOp dir parameters.query
  | "user_activities" =>
    getUserActivitiesOp dir parameters.userkey parameters.direction
      parameters.activityType
  | "user_activity_history" =>
    getUserActivityHistoryOp dir parameters.userkey parameters.timeframe
      parameters.activityType
  | "activity_feed" =>
    getActivityFeedOp dir parameters.filter parameters.limit parameters.dayRange
  | "activity_details" =>
    getActivityDetailsOp dir parameters.activityType parameters.id
  | "user_votes" =>
    getUserVotesOp dir parameters.userkey parameters.activityType
      parameters.activityId
  | "review_details" =>
    getReviewDetailsOp dir parameters.authorUserKey parameters.subjectUserKey
  | "user_networks" => getUserNetworksOp dir parameters.userkey
  | "reputation_trends" =>
    getReputationTrendsOp dir parameters.userkey parameters.timeframe
  | _ =>
    { success := false, data := Payload.null
      message := "Intent \"" ++ intent ++ "\" not supported"
      isRealData := false }

/-! ## The synthetic mock tier (`EthosMockClient`) -/

/-- The static `mockProfiles` table of `ethos-mock-client.ts`. -/
def mockProfiles : List (String × EthosProfile) :=
  [("address:0xd8dA6BF26964aF9D7eEd9e03E53415D37aA96045",
    { address := "0xd8dA6BF26964aF9D7eEd9e03E53415D37aA96045"
      score := 892, reviewCount := 47, vouchCount := 23
      credibility := { score := 892, rank := 15, percentile := 96 }
      xpTotal := 0 }),
   ("service:x.com:username:VitalikButerin",
    { address := "0xd8dA6BF26964aF9D7eEd9e03E53415D37aA96045"
      score := 1547, reviewCount := 234, vouchCount := 156
      credibility := { score := 1547, rank := 1, percentile := 999/10 }
      xpTotal := 0 }),
   ("vitalik",
    { address := "0xd8dA6BF26964aF9D7eEd9e03E53415D37aA96045"
      score := 1547, reviewCount := 234, vouchCount := 156
      credibility := { score := 1547, rank := 1, percentile := 999/10 }
      xpTotal := 0 }),
   ("cookedzera",
    { address := "0x742d35Cc6736C0532925a3b8D9d8bAdE3C0F16C3"
      score := 456, reviewCount := 28, vouchCount := 12
      credibility := { score := 456, rank := 156, percentile := 75 }
      xpTotal := 0 }),
   ("profileId:10",
    { address := "0x742d35Cc6736C0532925a3b8D9d8bAdE3C0F16C3"
      score := 456, reviewCount := 28, vouchCount := 12
      credibility := { score := 456, rank := 156, percentile := 75 }
      xpTotal := 0 })]

/-- `EthosMockClient.getProfileData`: exact-key lookup in the static table. -/
def mockGetProfileData (userkey : String) : Option EthosProfile :=
  (mockProfiles.find? (fun p => p.1 = userkey)).map (·.2)

/-- `EthosMockClient.getActivityObjects`: deterministic generated activity
(up to `min limit 5` records, one per day back from now). -/
def mockGetActivityObjects (now : Int) (userkey : String) (limit : Nat) :
    List Activity :=
  match mockGetProfileData userkey with
  | none => []
  | some _ =>
    (List.range (min limit 5)).map fun i =>
      { id := "activity_" ++ toString i
        activityType :=
          if i % 3 = 0 then "review" else if i % 3 = 1 then "vouch" else "slash"
        score := 20 + (i : Int) * 15
        timestamp := some (now - (i : Int)) }

/-! ## The static storage tier (`MemStorage`) -/

/-- A stored Ethos user row (`MemStorage`).  The `reputation` float is
modelled as a rational. -/
structure StoredUser where
  address : String
  username : String
  xp : Int
  reputation : ℚ
  attestations : Int
  rank : Int
  weeklyXp : Int
  monthlyXp : Int
  deriving Repr, DecidableEq

/-- The mock rows `MemStorage.initializeMockData` inserts. -/
def storedEthosUsers : List StoredUser :=
  [{ address := "0x1234567890abcdef1234567890abcdef12345678"
     username := "alice.eth", xp := 15240, reputation := 48/10
     attestations := 89, rank := 1, weeklyXp := 2150, monthlyXp := 8750 },
   { address := "0xabcdef1234567890abcdef1234567890abcdef12"
     username := "vitalik.eth", xp := 12890, reputation := 49/10
     attestations := 156, rank := 2, weeklyXp := 1890, monthlyXp := 7200 },
   { address := "0x9876543210fedcba9876543210fedcba98765432"
     username := "user123", xp := 1420, reputation := 32/10
     attestations := 12, rank := 1247, weeklyXp := 420, monthlyXp := 1680 },
   { address := "0xfedcba9876543210fedcba9876543210fedcba98"
     username := "bob.eth", xp := 8750, reputation := 41/10
     attestations := 67, rank := 5, weeklyXp := 1280, monthlyXp := 5200 },
   { address := "0x5555555555555555555555555555555555555555"
     username := "charlie.eth", xp := 6540, reputation := 38/10
     attestations := 45, rank := 8, weeklyXp := 980, monthlyXp := 3800 }]

structure Attestation where
  fromAddress : String
  toAddress : String
  score : ℚ
  comment : String
  deriving Repr, DecidableEq

/-- The mock attestations `MemStorage.initializeMockData` inserts. -/
def storedAttestations : List Attestation :=
  [{ fromAddress := "0x1234567890abcdef1234567890abcdef12345678"
     toAddress := "0x9876543210fedcba9876543210fedcba98765432"
     score := 45/10, comment := "Great contributor to the ecosystem" },
   { fromAddress := "0xfedcba9876543210fedcba9876543210fedcba98"
     toAddress := "0x9876543210fedcba9876543210fedcba98765432"
     score := 4, comment := "Reliable and trustworthy" },
   { fromAddress := "0x5555555555555555555555555555555555555555"
     toAddress := "0x9876543210fedcba9876543210fedcba98765432"
     score := 38/10, comment := "Good participation in governance" }]

/-- `MemStorage.getEthosUser`: case-insensitive address match. -/
def storageGetEthosUser (address : String) : Option StoredUser :=
  storedEthosUsers.find? fun u => strToLower u.address = strToLower address

/-- `MemStorage.getAttestationsForUser`: case-insensitive subject match. -/
def storageGetAttestationsForUser (address : String) : List Attestation :=
  storedAttestations.filter fun a => strToLower a.toAddress = strToLower address

/-! ## The `/api/ethos/user/:userkey/stats` route (degradation controller) -/

/-- Period start per route period: `day`/`week` are exact day arithmetic;
`month`/`year` approximate the source's calendar subtraction as 30/365 days;
an unrecognized period leaves the start at now (the switch has no default,
but the request schema rejects other values). -/
def periodStartRoute (now : Int) (period : String) : Int :=
  match period with
  | "day" => now - 1
  | "week" => now - 7
  | "month" => now - 30
  | "year" => now - 365
  | _ => now

/-- The response body of the live and mock branches of the stats route. -/
structure RouteStatsBody where
  address : String
  username : Option String
  score : Int
  periodScore : Int
  reputation : Int
  reviews : Int
  vouches : Int
  rank : Int
  percentile : ℚ
  period : String
  isRealData : Bool
  deriving Repr, DecidableEq

/-- The response body of the storage-fallback branch of the stats route. -/
structure StoredStatsBody where
  address : String
  username : String
  xp : Int
  periodXp : Int
  reputation : ℚ
  attestations : Nat
  rank : Int
  period : String
  isRealData : Bool
  deriving Repr, DecidableEq

/-- The stats route's possible responses, one constructor per tier plus the
404 returned when every tier is empty. -/
inductive StatsRouteResult where
  | live (body : RouteStatsBody)
  | mock (body : RouteStatsBody)
  | stored (body : StoredStatsBody)
  | notFound404
  deriving Repr, DecidableEq

/-- Sum of activity scores inside the period window
(`new Date(activity.timestamp) >= periodStart`). -/
def periodScoreOf (periodStart : Int) (activity : List Activity) : Int :=
  (activity.filter fun a =>
    match a.timestamp with
    | some t => periodStart ≤ t
    | none => false).foldl (fun s a => s + a.score) 0

/-- `userkey.includes('@') ? userkey : null`. -/
def usernameOf (userkey : String) : Option String :=
  if strContains userkey '@' then some userkey else none

/-- The `/api/ethos/user/:userkey/stats` handler of `routes.ts`: try the
live directory, then the synthetic mock tier, then the static storage tier,
stopping at the first tier that yields a profile and stamping `isRealData`
true only on the live branch; 404 when all three tiers are empty. -/
def statsRoute (dir : Directory) (now : Int) (userkey period : String) :
    StatsRouteResult :=
  match getProfileData dir userkey with
  | some ethosProfile =>
    let ethosActivity := getActivityObjects dir now userkey 50
    let periodStart := periodStartRoute now period
    StatsRouteResult.live
      { address := ethosProfile.address
        username := usernameOf userkey
        score := ethosProfile.score
        periodScore := periodScoreOf periodStart ethosActivity
        reputation := ethosProfile.credibility.score
        reviews := ethosProfile.reviewCount
        vouches := ethosProfile.vouchCount
        rank := ethosProfile.credibility.rank
        percentile := ethosProfile.credibility.percentile
        period := period
        isRealData := true }
  | none =>
  match mockGetProfileData userkey with
  | some mockProfile =>
    let mockActivity := mockGetActivityObjects now userkey 50
    let periodStart := periodStartRoute now period
    StatsRouteResult.mock
      { address := mockProfile.address
        username := usernameOf userkey
        score := mockProfile.score
        periodScore := periodScoreOf periodStart mockActivity
        reputation := mockProfile.credibility.score
        reviews := mockProfile.reviewCount
        vouches := mockProfile.vouchCount
        rank := mockProfile.credibility.rank
        percentile := mockProfile.credibility.percentile
        period := period
        isRealData := false }
  | none =>
  match storageGetEthosUser userkey with
  | some user =>
    let attestations := storageGetAttestationsForUser userkey
    let periodXp : Int :=
      if period = "month" then user.monthlyXp
      else if period = "day" then user.weeklyXp / 7
      else if period = "year" then user.monthlyXp * 12
      else user.weeklyXp
    StatsRouteResult.stored
      { address := user.address
        username := user.username
        xp := user.xp
        periodXp := periodXp
        reputation := user.reputation
        attestations := attestations.length
        rank := user.rank
        period := period
        isRealData := false }
  | none => StatsRouteResult.notFound404

/-- The degradation tier a stats response was served from. -/
inductive Tier where
  | live
  | mock
  | stored
  deriving Repr, DecidableEq

def tierOf : StatsRouteResult → Option Tier
  | StatsRouteResult.live _ => some Tier.live
  | StatsRouteResult.mock _ => some Tier.mock
  | StatsRouteResult.stored _ => some Tier.stored
  | StatsRouteResult.notFound404 => none

def isRealDataOf : StatsRouteResult → Option Bool
  | StatsRouteResult.live b => some b.isRealData
  | StatsRouteResult.mock b => some b.isRealData
  | StatsRouteResult.stored b => some b.isRealData
  | StatsRouteResult.notFound404 => none

def isLiveTier : Tier → Bool
  | Tier.live => true
  | Tier.mock => false
  | Tier.stored => false

/-! ## Strategy-chain abstraction (used to state the resolution-order claims) -/

/-- One external lookup, dispatched by endpoint, for a given identifier. -/
def lookupEndpoint (dir : Directory) (s : String) : Endpoint → Option EthosUser
  | Endpoint.farcasterUsernames => firstOk (dir.byFarcasterUsernames s)
  | Endpoint.twitter => firstOk (dir.byTwitter s)
  | Endpoint.address => firstOk (dir.byAddress s)
  | Endpoint.profileId => firstOk (dir.byProfileIds ((parseIntJs s).getD 0))
  | Endpoint.userId => firstOk (dir.byUserIds ((parseIntJs s).getD 0))
  | Endpoint.farcasterIds => firstOk (dir.byFarcasterIds s)
  | Endpoint.discord => firstOk (dir.byDiscord s)
  | Endpoint.telegram => firstOk (dir.byTelegram s)

/-- Generic first-success resolution chain over an ordered strategy list,
recording the endpoints attempted; short-circuits at the first hit. -/
def chainResolve (dir : Directory) (s : String) :
    List Endpoint → Option EthosUser × List Endpoint
  | [] => (none, [])
  | e :: rest =>
    match lookupEndpoint dir s e with
    | some u => (some u, [e])
    | none =>
      let r := chainResolve dir s rest
      (r.1, e :: r.2)

/-- The strategy order `getProfileData` actually follows: Farcaster username,
then Twitter/X, then address (only for `0x`-prefixed length-42 inputs), then
profile id (only for all-digit inputs). -/
def profileChainOrder (s : String) : List Endpoint :=
  [Endpoint.farcasterUsernames, Endpoint.twitter] ++
    (if strStartsWith s "0x" && s.length = 42 then [Endpoint.address] else []) ++
    (if isNumericString s then [Endpoint.profileId] else [])

/-- The fixed priority order the specification claims for `Unknown`
identifiers: Twitter/X first, then Farcaster username, then address, then
numeric profile id. -/
def specClaimedChainOrder : List Endpoint :=
  [Endpoint.twitter, Endpoint.farcasterUsernames, Endpoint.address,
    Endpoint.profileId]

/-- JS guard `!userkeys || userkeys.length < 2` of `compareUsers`. -/
def userkeysInvalid : Option (List String) → Bool
  | some (_ :: _ :: _) => false
  | _ => true

/-- Extract the `timeframeXP` field from a stats envelope, when present. -/
def statsTimeframeXP (r : APIExecutionResult) : Option Int :=
  match r.data with
  | Payload.stats s => some s.timeframeXP
  | _ => none

/-- Intents whose operations return a compound aggregate object as `data`
even on failure (so `data` is non-null there with `success=false`). -/
def aggregateDataIntents : List String :=
  ["user_comparison", "leaderboard", "user_activity_history", "activity_feed",
    "user_votes", "user_networks", "reputation_trends"]

/-- Intents whose operation requires a single `userkey` parameter. -/
def userkeyIntents : List String :=
  ["user_profile", "user_stats", "user_reviews", "user_activities",
    "user_activity_history", "user_networks", "reputation_trends"]

/-- The intents `executeAPICall` dispatches. -/
def supportedIntents : List String :=
  ["user_profile", "user_stats", "user_reviews", "user_comparison",
    "leaderboard", "search_users", "user_activities", "user_activity_history",
    "activity_feed", "activity_details", "user_votes", "review_details",
    "user_networks", "reputation_trends"]

/-! ## Concrete fixtures for witnesses and counterexamples -/

/-- A directory in which every lookup succeeds with an empty result. -/
def emptyDir : Directory where
  byFarcasterUsernames := fun _ => ApiResult.ok []
  byTwitter := fun _ => ApiResult.ok []
  byAddress := fun _ => ApiResult.ok []
  byProfileIds := fun _ => ApiResult.ok []
  byUserIds := fun _ => ApiResult.ok []
  byFarcasterIds := fun _ => ApiResult.ok []
  byDiscord := fun _ => ApiResult.ok []
  byTelegram := fun _ => ApiResult.ok []
  xpUser := fun _ => ApiResult.ok 0
  xpWeekly := fun _ _ => ApiResult.ok []
  reviewsQ := fun _ => ApiResult.ok []
  searchQ := fun _ => ApiResult.ok []
  leaderboardQ := fun _ => ApiResult.ok []
  activitiesProfile := fun _ _ _ => ApiResult.ok []
  activitiesByUserkey := fun _ _ => ApiResult.ok []
  feedQ := fun _ _ _ => ApiResult.ok ([], 0)
  activityDetailsQ := fun _ _ => ApiResult.error
  votesQ := fun _ _ => ApiResult.ok []
  reviewBetweenQ := fun _ _ => ApiResult.error

def uAlice : EthosUser :=
  { id := 11, userkeys := ["service:x.com:username:alice"], score := 100
    reviewPositive := 3, reviewNeutral := 1, reviewNegative := 2
    vouchReceivedCount := 4, xpTotal := 500 }

def uBob : EthosUser :=
  { id := 12, userkeys := ["service:x.com:username:bob"], score := 40
    reviewPositive := 2, reviewNeutral := 1, reviewNegative := 1
    vouchReceivedCount := 1, xpTotal := 200 }

/-- A directory that resolves `alice` and `bob` by Farcaster username. -/
def dirTwo : Directory :=
  { emptyDir with
    byFarcasterUsernames := fun s =>
      if s = "alice" then ApiResult.ok [uAlice]
      else if s = "bob" then ApiResult.ok [uBob]
      else ApiResult.ok [] }

def uCarol : EthosUser :=
  { id := 13, userkeys := ["carolkey"], score := 77
    reviewPositive := 1, reviewNeutral := 0, reviewNegative := 0
    vouchReceivedCount := 0, xpTotal := 300 }

/-- A directory in which `carol` resolves and has exactly two weekly XP
samples (5 XP and 7 XP) in season 1. -/
def dirCarol : Directory :=
  { emptyDir with
    byFarcasterUsernames := fun s =>
      if s = "carol" then ApiResult.ok [uCarol] else ApiResult.ok []
    byTwitter := fun s =>
      if s = "carol" then ApiResult.ok [uCarol] else ApiResult.ok []
    xpWeekly := fun k _ =>
      if k = "carolkey" then
        ApiResult.ok
          [{ week := 1, weeklyXp := 5, cumulativeXp := 5 },
           { week := 2, weeklyXp := 7, cumulativeXp := 12 }]
      else ApiResult.ok [] }

/-- A 42-character mixed-case input matching `^0x[a-fA-F0-9]{40}$`. -/
def addrInput : String := "0x1234567890abcdefABCDEF1234567890abcdef12"

/-! ## Theorems -/

/-- Every profile `getProfileData` returns is produced by
`transformUserData` on some raw directory record. -/
lemma getProfileData_eq_transform (dir : Directory) (k : String)
    (p : EthosProfile) (h : getProfileData dir k = some p) :
    ∃ u, p = transformUserData u := by
  unfold getProfileData getProfileDataT at h
  split at h
  · exact ⟨_, by simpa using h.symm⟩
  · split at h
    · exact ⟨_, by simpa using h.symm⟩
    · simp only at h
      split at h
      · rename_i heq
        split at heq
        · split at heq
          · exact ⟨_, by simp at heq h; exact (heq.1 ▸ h).symm⟩
          · simp at heq
        · simp at heq
      · split at h
        · split at h
          · exact ⟨_, by simpa using h.symm⟩
          · simp at h
        · simp at h

/-- C1: the stats route serves the first non-empty tier in the order
live directory → synthetic mock table → static storage, and stamps
`isRealData = true` exactly on the live tier (mock and storage responses
carry `isRealData = false`; all tiers empty yields a 404 with no flag). -/
theorem stats_route_first_tier_provenance (dir : Directory) (now : Int)
    (userkey period : String) :
    tierOf (statsRoute dir now userkey period) =
      (if (getProfileData dir userkey).isSome then some Tier.live
       else if (mockGetProfileData userkey).isSome then some Tier.mock
       else if (storageGetEthosUser userkey).isSome then some Tier.stored
       else none) ∧
    isRealDataOf (statsRoute dir now userkey period) =
      (tierOf (statsRoute dir now userkey period)).map isLiveTier := by
  cases h1 : getProfileData dir userkey with
  | some p => simp [statsRoute, h1, tierOf, isRealDataOf, isLiveTier]
  | none =>
    cases h2 : mockGetProfileData userkey with
    | some p => simp [statsRoute, h1, h2, tierOf, isRealDataOf, isLiveTier]
    | none =>
      cases h3 : storageGetEthosUser userkey with
      | some u => simp [statsRoute, h1, h2, h3, tierOf, isRealDataOf, isLiveTier]
      | none => simp [statsRoute, h1, h2, h3, tierOf, isRealDataOf, isLiveTier]

/-- C6: the pairwise comparison computes deltas only when both identities
resolve, the deltas are `value(a) - value(b)` with the rank delta reversed
(`rank(b) - rank(a)`, lower rank being better), and swapping the arguments
negates every delta exactly. -/
theorem compareProfiles_antisymmetric (dir : Directory) (a b : String) :
    ((compareProfiles dir a b).comparison.isSome ↔
      ((getProfileData dir a).isSome ∧ (getProfileData dir b).isSome)) ∧
    ∀ pa pb, getProfileData dir a = some pa → getProfileData dir b = some pb →
      (compareProfiles dir a b).comparison =
        some { scoreDiff := pa.score - pb.score
               rankDiff := pb.credibility.rank - pa.credibility.rank
               reviewDiff := pa.reviewCount - pb.reviewCount
               vouchDiff := pa.vouchCount - pb.vouchCount } ∧
      (compareProfiles dir b a).comparison =
        some { scoreDiff := -(pa.score - pb.score)
               rankDiff := -(pb.credibility.rank - pa.credibility.rank)
               reviewDiff := -(pa.reviewCount - pb.reviewCount)
               vouchDiff := -(pa.vouchCount - pb.vouchCount) } := by
  constructor
  · cases ha : getProfileData dir a <;> cases hb : getProfileData dir b <;>
      simp [compareProfiles, ha, hb]
  · intro pa pb ha hb
    refine ⟨by simp [compareProfiles, ha, hb], ?_⟩
    simp [compareProfiles, ha, hb, neg_sub]

/-- Witness for C6 at the concrete two-user directory. -/
theorem compareProfiles_antisymmetric_witness :
    (compareProfiles dirTwo "alice" "bob").comparison =
      some { scoreDiff := (transformUserData uAlice).score - (transformUserData uBob).score
             rankDiff := (transformUserData uBob).credibility.rank -
               (transformUserData uAlice).credibility.rank
             reviewDiff := (transformUserData uAlice).reviewCount -
               (transformUserData uBob).reviewCount
             vouchDiff := (transformUserData uAlice).vouchCount -
               (transformUserData uBob).vouchCount } ∧
    (compareProfiles dirTwo "bob" "alice").comparison =
      some { scoreDiff := -((transformUserData uAlice).score - (transformUserData uBob).score)
             rankDiff := -((transformUserData uBob).credibility.rank -
               (transformUserData uAlice).credibility.rank)
             reviewDiff := -((transformUserData uAlice).reviewCount -
               (transformUserData uBob).reviewCount)
             vouchDiff := -((transformUserData uAlice).vouchCount -
               (transformUserData uBob).vouchCount) } :=
  (compareProfiles_antisymmetric dirTwo "alice" "bob").2
    (transformUserData uAlice) (transformUserData uBob) rfl rfl

/-- C7: for any resolvable user and any directory state, the stats
operation with timeframe `day` returns `timeframeXP = 0` regardless of the
XP series, with the period starting one day before now and a successful
envelope. -/
theorem user_stats_day_always_zero (dir : Directory) (now : Int)
    (userkey : String) (p : EthosProfile) (hk : userkey ≠ "")
    (hp : getProfileData dir userkey = some p) :
    getUserStatsOp dir now (some userkey) (some "day") =
      { success := true
        data := Payload.stats
          { profile := p
            totalXP := getUserTotalXP dir userkey
            timeframeXP := 0
            timeframe := "day"
            periodStart := now - 1
            periodEnd := now
            weeklyDetails := none }
        message := "Statistics retrieved successfully"
        isRealData := true } := by
  simp [getUserStatsOp, falsyStr, hk, hp, periodStartExec]

/-- Witness for C7 at the concrete two-user directory. -/
theorem user_stats_day_always_zero_witness :
    getUserStatsOp dirTwo 100 (some "alice") (some "day") =
      { success := true
        data := Payload.stats
          { profile := transformUserData uAlice
            totalXP := getUserTotalXP dirTwo "alice"
            timeframeXP := 0
            timeframe := "day"
            periodStart := 100 - 1
            periodEnd := 100
            weeklyDetails := none }
        message := "Statistics retrieved successfully"
        isRealData := true } :=
  user_stats_day_always_zero dirTwo 100 "alice" (transformUserData uAlice)
    (by decide) rfl

/-- C10: the live transform hardcodes `credibility.rank = 0` and
`credibility.percentile = 0` (the directory response does not supply them),
so every comparison of two live-resolved identities has rank delta 0. -/
theorem live_rank_hardcoded_zero (dir : Directory) :
    (∀ u, (transformUserData u).credibility.rank = 0 ∧
      (transformUserData u).credibility.percentile = 0) ∧
    ∀ a b c, (compareProfiles dir a b).comparison = some c → c.rankDiff = 0 := by
  refine ⟨fun u => ⟨rfl, rfl⟩, fun a b c hc => ?_⟩
  cases ha : getProfileData dir a with
  | none => simp [compareProfiles, ha] at hc
  | some pa =>
    cases hb : getProfileData dir b with
    | none => simp [compareProfiles, ha, hb] at hc
    | some pb =>
      obtain ⟨ua, hua⟩ := getProfileData_eq_transform dir a pa ha
      obtain ⟨ub, hub⟩ := getProfileData_eq_transform dir b pb hb
      simp [compareProfiles, ha, hb] at hc
      rw [← hc]
      simp [hua, hub, transformUserData]

/-- Witness for C10 at the concrete two-user directory. -/
theorem live_rank_hardcoded_zero_witness :
    ({ scoreDiff := 60, rankDiff := 0, reviewDiff := 2, vouchDiff := 3 } :
      ComparisonDeltas).rankDiff = 0 :=
  (live_rank_hardcoded_zero dirTwo).2 "alice" "bob" _ (by decide)

/-- The instrumented `getProfileData` equals the generic first-success chain
run over the order Farcaster username, Twitter/X, address (only for
address-shaped inputs), profile id (only for numeric inputs). -/
lemma getProfileDataT_eq_chain (dir : Directory) (s : String) :
    getProfileDataT dir s =
      ((chainResolve dir s (profileChainOrder s)).1.map transformUserData,
        (chainResolve dir s (profileChainOrder s)).2) := by
  unfold getProfileDataT profileChainOrder
  cases hf : firstOk (dir.byFarcasterUsernames s) with
  | some u => simp [chainResolve, lookupEndpoint, hf]
  | none =>
    cases ht : firstOk (dir.byTwitter s) with
    | some u => simp [chainResolve, lookupEndpoint, hf, ht]
    | none =>
      cases haddr : strStartsWith s "0x" && s.length = 42 with
      | true =>
        cases ha : firstOk (dir.byAddress s) with
        | some u => simp [chainResolve, lookupEndpoint, hf, ht, ha, haddr]
        | none =>
          cases hnum : isNumericString s with
          | true =>
            cases hp : firstOk (dir.byProfileIds ((parseIntJs s).getD 0)) with
            | some u =>
              simp [chainResolve, lookupEndpoint, hf, ht, ha, haddr, hnum, hp]
            | none =>
              simp [chainResolve, lookupEndpoint, hf, ht, ha, haddr, hnum, hp]
          | false => simp [chainResolve, lookupEndpoint, hf, ht, ha, haddr, hnum]
      | false =>
        cases hnum : isNumericString s with
        | true =>
          cases hp : firstOk (dir.byProfileIds ((parseIntJs s).getD 0)) with
          | some u => simp [chainResolve, lookupEndpoint, hf, ht, haddr, hnum, hp]
          | none => simp [chainResolve, lookupEndpoint, hf, ht, haddr, hnum, hp]
        | false => simp [chainResolve, lookupEndpoint, hf, ht, haddr, hnum]

/-- The first endpoint `getProfileData` attempts is always the
Farcaster-username lookup. -/
lemma getProfileDataCalls_head (dir : Directory) (s : String) :
    (getProfileDataCalls dir s).head? = some Endpoint.farcasterUsernames := by
  have h := getProfileDataT_eq_chain dir s
  unfold getProfileDataCalls
  rw [h]
  simp only [profileChainOrder, List.cons_append]
  cases hf : lookupEndpoint dir s Endpoint.farcasterUsernames with
  | some u => simp [chainResolve, hf]
  | none => simp [chainResolve, hf]

/-- C4 (amended): `getProfileData` resolves by the first-success strategy
chain in the fixed order Farcaster username first, then Twitter/X, then
address (attempted only for `0x`-prefixed length-42 inputs), then numeric
profile id (attempted only for all-digit inputs), short-circuiting at the
first lookup that returns a user. -/
theorem getProfileData_chain_order (dir : Directory) (s : String) :
    getProfileDataT dir s =
      ((chainResolve dir s (profileChainOrder s)).1.map transformUserData,
        (chainResolve dir s (profileChainOrder s)).2) :=
  getProfileDataT_eq_chain dir s

/-- Counterexample to C4 as stated: on the bare numeric input `"7"` with
every lookup empty, the code attempts `[farcasterUsernames, twitter,
profileId]` — Farcaster before Twitter and no address attempt — not the
claimed fixed order `[twitter, farcasterUsernames, address, profileId]`. -/
theorem chain_order_claim_cx :
    getProfileDataCalls emptyDir "7" =
      [Endpoint.farcasterUsernames, Endpoint.twitter, Endpoint.profileId] ∧
    getProfileDataCalls emptyDir "7" ≠ specClaimedChainOrder := by decide

/-- C5 (amended): for inputs matching `0x` + 40 hex characters of either
letter case, `findUser` attempts the address-lookup strategy and nothing
else; `getProfileData`, by contrast, attempts the Farcaster-username
strategy first even for address-shaped inputs. -/
theorem address_input_strategies (dir : Directory) (s : String)
    (h : matchesEthAddress s = true) :
    findUserT dir s = (firstOk (dir.byAddress s), [Endpoint.address]) ∧
    (getProfileDataCalls dir s).head? = some Endpoint.farcasterUsernames := by
  refine ⟨?_, getProfileDataCalls_head dir s⟩
  unfold findUserT
  simp [h]

/-- Witness for C5 at a concrete mixed-case address input. -/
theorem address_input_strategies_witness :
    matchesEthAddress addrInput = true ∧
    findUserT emptyDir addrInput = (none, [Endpoint.address]) := by
  refine ⟨by decide, ?_⟩
  rw [(address_input_strategies emptyDir addrInput (by decide)).1]
  rfl

/-- Counterexample to C5 as stated: for the concrete address-pattern input,
`getProfileData` attempts the Farcaster and Twitter username strategies
before the address strategy, so the chain does not try the address lookup
only. -/
theorem address_chain_social_cx :
    getProfileDataCalls emptyDir addrInput =
      [Endpoint.farcasterUsernames, Endpoint.twitter, Endpoint.address] ∧
    Endpoint.twitter ∈ getProfileDataCalls emptyDir addrInput := by decide

/-- C3 (amended): with fewer than 4 weekly XP samples available, the month
branch leaves the timeframe value at 0 — the last-4-weeks sum is computed
only when at least 4 samples exist — and the envelope still succeeds. -/
theorem user_stats_month_under_four_samples (dir : Directory) (now : Int)
    (userkey : String) (p : EthosProfile) (hk : userkey ≠ "")
    (hp : getProfileData dir userkey = some p)
    (hlen : (getUserWeeklyXP dir userkey 1).length < 4) :
    getUserStatsOp dir now (some userkey) (some "month") =
      { success := true
        data := Payload.stats
          { profile := p
            totalXP := getUserTotalXP dir userkey
            timeframeXP := 0
            timeframe := "month"
            periodStart := now - 30
            periodEnd := now
            weeklyDetails := none }
        message := "Statistics retrieved successfully"
        isRealData := true } := by
  have h4 : ¬ (4 ≤ (getUserWeeklyXP dir userkey 1).length) := by omega
  simp [getUserStatsOp, falsyStr, hk, hp, periodStartExec, h4]

/-- Witness for C3 at the concrete two-sample directory. -/
theorem user_stats_month_under_four_samples_witness :
    getUserStatsOp dirCarol 0 (some "carol") (some "month") =
      { success := true
        data := Payload.stats
          { profile := transformUserData uCarol
            totalXP := getUserTotalXP dirCarol "carol"
            timeframeXP := 0
            timeframe := "month"
            periodStart := 0 - 30
            periodEnd := 0
            weeklyDetails := none }
        message := "Statistics retrieved successfully"
        isRealData := true } :=
  user_stats_month_under_four_samples dirCarol 0 "carol"
    (transformUserData uCarol) (by decide) rfl (by decide)

/-- Counterexample to C3 as stated: the user `carol` has exactly two weekly
samples (5 XP and 7 XP), yet the month stats value is 0, not the claimed
sum 12 of the available samples. -/
theorem month_partial_sum_cx :
    (getUserWeeklyXP dirCarol "carol" 1).length = 2 ∧
    statsTimeframeXP (getUserStatsOp dirCarol 0 (some "carol") (some "month")) =
      some 0 ∧
    ¬ statsTimeframeXP (getUserStatsOp dirCarol 0 (some "carol") (some "month")) =
      some (5 + 7) := by decide

/-- Counterexample to C2 as stated: a comparison of two identities not found
in any tier returns `success=false` with a non-null `data` (the comparison
aggregate holding null profiles), so `success=false` does not imply
`data=null`. -/
theorem comparison_failure_nonnull_data_cx :
    (executeAPICall emptyDir 0 "user_comparison"
      { userkeys := some ["ghostuser1", "ghostuser2"] }).success = false ∧
    (executeAPICall emptyDir 0 "user_comparison"
      { userkeys := some ["ghostuser1", "ghostuser2"] }).data ≠ Payload.null := by
  decide

/-- C2 (amended): `executeAPICall` always returns a well-formed envelope (it
is a total function: every external throw is caught), and `success=false`
implies `data=null` for every intent except the aggregate-returning
operations (comparison, leaderboard, activity history, activity feed, votes,
networks, reputation trends), whose failure envelopes carry the non-null
empty aggregate instead. -/
theorem executeAPICall_failure_data_null (dir : Directory) (now : Int)
    (intent : String) (params : Params)
    (h : (executeAPICall dir now intent params).success = false) :
    (executeAPICall dir now intent params).data = Payload.null ∨
      intent ∈ aggregateDataIntents := by
  revert h
  unfold executeAPICall
  split
  · -- user_profile
    unfold getUserProfileOp
    split
    · intro _; left; rfl
    · dsimp only
      split
      · intro h; simp at h
      · intro _; left; rfl
  · -- user_stats
    unfold getUserStatsOp
    split
    · intro _; left; rfl
    · dsimp only
      split
      · intro _; left; rfl
      · intro h; simp at h
  · -- user_reviews
    unfold getUserReviewsOp
    split
    · intro _; left; rfl
    · intro h; simp at h
  · -- user_comparison
    intro _; right; decide
  · -- leaderboard
    intro _; right; decide
  · -- search_users
    unfold searchUsersOp
    split
    · intro _; left; rfl
    · intro h; simp at h
  · -- user_activities
    unfold getUserActivitiesOp
    split
    · intro _; left; rfl
    · intro h; simp at h
  · -- user_activity_history
    intro _; right; decide
  · -- activity_feed
    intro _; right; decide
  · -- activity_details
    unfold getActivityDetailsOp
    split
    · intro _; left; rfl
    · split
      · intro h; simp at h
      · intro _; left; rfl
  · -- user_votes
    intro _; right; decide
  · -- review_details
    unfold getReviewDetailsOp
    split
    · intro _; left; rfl
    · split
      · intro h; simp at h
      · intro _; left; rfl
  · -- user_networks
    intro _; right; decide
  · -- reputation_trends
    intro _; right; decide
  · -- unsupported intent
    intro _; left; rfl

/-- Witness for C2 at a not-found single-profile lookup. -/
theorem executeAPICall_failure_data_null_witness :
    (executeAPICall emptyDir 0 "user_profile" { userkey := some "ghost" }).data =
      Payload.null ∨ "user_profile" ∈ aggregateDataIntents :=
  executeAPICall_failure_data_null emptyDir 0 "user_profile"
    { userkey := some "ghost" } (by decide)

/-- C8: a missing required identifier is rejected before any external call —
the envelope is a constant independent of the directory — with a message
naming the missing parameter: the seven single-`userkey` operations, the
votes operation (which also requires `userkey`), and the
review-between-two-identities operation (whose `authorUserKey` and
`subjectUserKey` are both identity parameters); the comparison intent with
fewer than two userkeys is rejected with a message that two identifiers are
required. -/
theorem missing_identifier_rejected (dir : Directory) (now : Int)
    (params : Params) (h1 : falsyStr params.userkey = true)
    (h2 : userkeysInvalid params.userkeys = true) :
    (∀ i ∈ userkeyIntents, executeAPICall dir now i params =
      { success := false, data := Payload.null
        message := "User identifier required", isRealData := false }) ∧
    executeAPICall dir now "user_comparison" params =
      { success := false, data := Payload.null
        message := "Two user identifiers required for comparison"
        isRealData := false } ∧
    executeAPICall dir now "user_votes" params =
      { success := false, data := Payload.null
        message := "User, activity type, and activity ID required"
        isRealData := false } ∧
    ((falsyStr params.authorUserKey || falsyStr params.subjectUserKey) = true →
      executeAPICall dir now "review_details" params =
        { success := false, data := Payload.null
          message := "Author and subject user keys required"
          isRealData := false }) := by
  refine ⟨?_, ?_, ?_, ?_⟩
  · intro i hi
    fin_cases hi <;>
      simp [executeAPICall, getUserProfileOp, getUserStatsOp, getUserReviewsOp,
        getUserActivitiesOp, getUserActivityHistoryOp, getUserNetworksOp,
        getReputationTrendsOp, requiredUserEnv, h1]
  · show compareUsersOp dir params.userkeys = _
    cases hks : params.userkeys with
    | none => rfl
    | some l =>
      cases l with
      | nil => rfl
      | cons a t =>
        cases t with
        | nil => rfl
        | cons b t2 =>
          rw [hks] at h2
          simp [userkeysInvalid] at h2
  · show getUserVotesOp dir params.userkey params.activityType
      params.activityId = _
    simp [getUserVotesOp, h1]
  · intro h3
    show getReviewDetailsOp dir params.authorUserKey params.subjectUserKey = _
    simp [getReviewDetailsOp, h3]

/-- Witness for C8 with the empty parameter map. -/
theorem missing_identifier_rejected_witness :
    executeAPICall emptyDir 0 "user_profile" {} =
      { success := false, data := Payload.null
        message := "User identifier required", isRealData := false } ∧
    executeAPICall emptyDir 0 "user_comparison" {} =
      { success := false, data := Payload.null
        message := "Two user identifiers required for comparison"
        isRealData := false } ∧
    executeAPICall emptyDir 0 "user_votes" {} =
      { success := false, data := Payload.null
        message := "User, activity type, and activity ID required"
        isRealData := false } ∧
    executeAPICall emptyDir 0 "review_details" {} =
      { success := false, data := Payload.null
        message := "Author and subject user keys required"
        isRealData := false } :=
  ⟨(missing_identifier_rejected emptyDir 0 {} rfl rfl).1 "user_profile"
      (by decide),
    (missing_identifier_rejected emptyDir 0 {} rfl rfl).2.1,
    (missing_identifier_rejected emptyDir 0 {} rfl rfl).2.2.1,
    (missing_identifier_rejected emptyDir 0 {} rfl rfl).2.2.2 rfl⟩

/-- C9: an intent outside the supported set yields `success=false` with
`data=null` and a message naming the unsupported intent, independently of
the directory (no external call). -/
theorem unsupported_intent_envelope (dir : Directory) (now : Int)
    (params : Params) (intent : String) (h : intent ∉ supportedIntents) :
    executeAPICall dir now intent params =
      { success := false, data := Payload.null
        message := "Intent \"" ++ intent ++ "\" not supported"
        isRealData := false } := by
  unfold executeAPICall
  split <;> first
    | rfl
    | exact absurd (by decide) h

/-- Witness for C9 at the unknown intent `foo`: the message mentions both
`foo` and `not supported`. -/
theorem unsupported_intent_envelope_witness :
    executeAPICall emptyDir 0 "foo" {} =
      { success := false, data := Payload.null
        message := "Intent \"" ++ "foo" ++ "\" not supported"
        isRealData := false } :=
  unsupported_intent_envelope emptyDir 0 {} "foo" (by decide)

end RetroQuery
